import Mathlib

/-!
Verification of `main.py` of lubasinkal/actuworry.

The source file builds a FastAPI application:

  app = FastAPI()
  router = APIRouter()

  @router.post("/")
  async def hello():
      return ("hello" mapped to "hello")

  app.include_router(router)
  app.mount("/", StaticFiles(directory="frontend", html=True), name="frontend")

The handler is a zero-parameter coroutine returning a constant dict, which
FastAPI serialises as a JSON object with status 200.  Request dispatch and
static-file serving are performed by FastAPI/Starlette, so the embedding
below also models the framework behaviour that gives the source its
meaning:

* `FastAPI()` with default arguments auto-registers four documentation
  routes before `include_router` runs: `/openapi.json`, `/docs`,
  `/docs/oauth2-redirect` and `/redoc`.  These are Starlette `Route`s
  created with `methods=None`, so they fully match any request method at
  their exact path and answer 200 with a framework-generated document
  (whose contents are abstracted here as `Body.doc`).
* `Router.app` scans the route list in registration order, takes the first
  full match, falls back to the first partial (method-mismatch) match with
  status 405, and otherwise returns 404.  A `Mount` at path "/" fully
  matches every request path.
* `StaticFiles.__init__` with the default `check_dir=True` raises a
  RuntimeError at construction time when the configured directory does not
  exist; construction is therefore modelled as `Except`.
* `StaticFiles.get_response` rejects methods other than GET and HEAD with
  status 405; otherwise it normalises the path, serves a regular file
  directly, serves `index.html` for a directory when `html=True` (with a
  307 redirect when the URL path lacks a trailing slash), and otherwise
  answers 404 (serving `404.html` as the body when present).

The filesystem is modelled as a finite map of file paths to contents plus a
list of existing directories.  Path normalisation follows
`os.path.normpath` on the paths this application can meet: empty and "."
segments are dropped and ".." pops the preceding segment; a path whose
normal form still escapes the mounted directory finds no entry in the map
and yields 404, matching the containment check in Starlette.
-/

/-- HTTP methods relevant to the application. -/
inductive Method
  | GET
  | HEAD
  | POST
  | PUT
  | DELETE
deriving DecidableEq, Repr

/-- JSON values as far as this application produces them: the only route
handler returns a Python dict of strings, which FastAPI serialises as a
JSON object whose fields are strings. -/
inductive Json
  | obj : List (String × String) → Json
deriving DecidableEq, Repr

/-- The body of `hello` in `main.py`: `return` of the dict mapping
"hello" to "hello".  The Python function is a zero-parameter coroutine
whose body is this single `return`, so its embedding is the returned
value itself. -/
def hello : Json := Json.obj [("hello", "hello")]

/-- Character-list recursion deciding whether the second list starts the
first; used in place of the byte-position string primitives, which the
kernel cannot evaluate. -/
def charsStart : List Char → List Char → Bool
  | _, [] => true
  | [], _ :: _ => false
  | c :: cs, d :: ds => c == d && charsStart cs ds

/-- `s.startswith(pre)` on strings. -/
def strStartsWith (s pre : String) : Bool :=
  charsStart s.toList pre.toList

/-- `s.endswith(suf)` on strings. -/
def strEndsWith (s suf : String) : Bool :=
  charsStart s.toList.reverse suf.toList.reverse

/-- Split a character list at every slash. -/
def splitSlashAux : List Char → List Char → List String
  | [], acc => [String.mk acc.reverse]
  | c :: cs, acc =>
      if c == '/' then String.mk acc.reverse :: splitSlashAux cs []
      else splitSlashAux cs (c :: acc)

/-- Response bodies: a serialised JSON value, the contents of a served
file, plain text (framework default error pages), a redirect target, or a
framework-generated document (the OpenAPI schema and the documentation
pages, identified by name; their exact contents are generated by the
framework and not modelled). -/
inductive Body
  | json : Json → Body
  | file : String → Body
  | text : String → Body
  | redirect : String → Body
  | doc : String → Body
deriving DecidableEq, Repr

/-- An HTTP response: status code and body. -/
structure Response where
  status : Nat
  body : Body
deriving DecidableEq, Repr

/-- Keys of a JSON object, in order. -/
def Json.keys : Json → List String
  | Json.obj fields => fields.map Prod.fst

/-- An HTTP request.  The handler in `main.py` declares no parameters, so
none of these fields is ever read by it; they exist so that independence
from the request can be stated. -/
structure Request where
  method : Method
  path : String
  headers : List (String × String)
  query : List (String × String)
  body : String
deriving DecidableEq, Repr

/-- The filesystem visible to the application: existing directories and a
finite map from file paths to file contents. -/
structure FileSystem where
  dirs : List String
  files : List (String × String)
deriving DecidableEq, Repr

/-- Contents of the file at `p`, when it exists. -/
def FileSystem.fileContents (fs : FileSystem) (p : String) : Option String :=
  fs.files.lookup p

/-- Whether `p` is an existing directory. -/
def FileSystem.isDir (fs : FileSystem) (p : String) : Bool :=
  fs.dirs.contains p

/-- Well-formedness: no path is both a directory and a regular file. -/
def FileSystem.wf (fs : FileSystem) : Bool :=
  fs.dirs.all (fun p => (fs.files.lookup p).isNone)

/-- Configuration of a Starlette `StaticFiles` instance, as constructed in
`main.py` with `directory="frontend"` and `html=True`. -/
structure StaticFiles where
  directory : String
  html : Bool
deriving DecidableEq, Repr

/-- Starlette `StaticFiles.__init__` with the default `check_dir=True`:
construction raises (here: returns an error) when the configured directory
does not exist on the filesystem. -/
def StaticFiles.init (fs : FileSystem) (directory : String) (html : Bool) :
    Except String StaticFiles :=
  if fs.isDir directory then Except.ok { directory := directory, html := html }
  else Except.error "Directory does not exist"

/-- Segment normalisation of `os.path.normpath`: empty and "." segments
are dropped; ".." pops the preceding segment when one exists and is kept
otherwise (a leading ".." escapes the directory and will resolve to
nothing under the mount, matching the Starlette containment check).  The
accumulator holds the processed segments in reverse. -/
def normSegs : List String → List String → List String
  | [], acc => acc.reverse
  | s :: rest, acc =>
      if s = "" ∨ s = "." then normSegs rest acc
      else if s = ".." then
        match acc with
        | [] => normSegs rest [".."]
        | a :: as =>
            if a = ".." then normSegs rest (".." :: a :: as)
            else normSegs rest as
      else normSegs rest (s :: acc)

/-- Path normalisation performed by `StaticFiles.get_path` /
`os.path.normpath`: split the URL path on "/", normalise the segments, and
rejoin.  The empty result denotes the mounted directory itself (Python
returns "."). -/
def getPath (urlPath : String) : String :=
  String.intercalate "/" (normSegs (splitSlashAux urlPath.toList []) [])

/-- `os.path.join` on the relative paths appearing here. -/
def joinRel (rel name : String) : String :=
  if rel = "" then name else rel ++ "/" ++ name

/-- What a path names on the filesystem: a regular file with its contents,
a directory, or nothing. -/
inductive PathStat
  | file : String → PathStat
  | dir : PathStat
  | missing : PathStat
deriving DecidableEq, Repr

/-- Starlette `StaticFiles.lookup_path`: resolve a normalised relative
path against the configured directory. -/
def StaticFiles.lookupPath (sf : StaticFiles) (fs : FileSystem) (rel : String) :
    PathStat :=
  let full := if rel = "" then sf.directory else sf.directory ++ "/" ++ rel
  match fs.fileContents full with
  | some c => PathStat.file c
  | none => if fs.isDir full then PathStat.dir else PathStat.missing

/-- The 404 fallback of `StaticFiles.get_response`: with `html=True` a
`404.html` in the directory is served as the body; the status is 404
either way. -/
def StaticFiles.notFoundResponse (sf : StaticFiles) (fs : FileSystem) : Response :=
  if sf.html then
    match sf.lookupPath fs "404.html" with
    | PathStat.file c => { status := 404, body := Body.file c }
    | _ => { status := 404, body := Body.text "Not Found" }
  else { status := 404, body := Body.text "Not Found" }

/-- Starlette `StaticFiles.get_response`: 405 for methods other than GET
and HEAD; serve a regular file; for a directory with `html=True` serve its
`index.html` (redirecting with 307 when the URL path has no trailing
slash); otherwise the 404 fallback. -/
def StaticFiles.getResponse (sf : StaticFiles) (fs : FileSystem)
    (method : Method) (urlPath : String) : Response :=
  if method ≠ Method.GET ∧ method ≠ Method.HEAD then
    { status := 405, body := Body.text "Method Not Allowed" }
  else
    let rel := getPath urlPath
    match sf.lookupPath fs rel with
    | PathStat.file c => { status := 200, body := Body.file c }
    | PathStat.dir =>
        if sf.html then
          match sf.lookupPath fs (joinRel rel "index.html") with
          | PathStat.file c =>
              if strEndsWith urlPath "/" then { status := 200, body := Body.file c }
              else { status := 307, body := Body.redirect (urlPath ++ "/") }
          | _ => sf.notFoundResponse fs
        else sf.notFoundResponse fs
    | PathStat.missing => sf.notFoundResponse fs

/-- Whether the static handler resolves `urlPath` to an existing servable
file: either the path names a regular file, or (with `html=True`) it names
a directory containing an `index.html`. -/
def StaticFiles.resolvesFile (sf : StaticFiles) (fs : FileSystem)
    (urlPath : String) : Bool :=
  match sf.lookupPath fs (getPath urlPath) with
  | PathStat.file _ => true
  | PathStat.dir =>
      sf.html &&
        (match sf.lookupPath fs (joinRel (getPath urlPath) "index.html") with
         | PathStat.file _ => true
         | _ => false)
  | PathStat.missing => false

/-- A route of the application: an API route as registered by
`@router.post("/")` (FastAPI calls the zero-parameter handler and
serialises its constant result), a framework route registered by
`FastAPI()` itself with `methods=None` — matching any method at its exact
path and answering a fixed response — or the mount added by `app.mount`. -/
inductive Route
  | api : Method → String → Json → Route
  | anyMethod : String → Response → Route
  | mount : String → StaticFiles → Route
deriving DecidableEq, Repr

/-- Outcome of Starlette route matching: full match, partial match (path
matches but the method does not), or no match. -/
inductive RMatch
  | full
  | partialHit
  | noHit
deriving DecidableEq, Repr

/-- Starlette `Route.matches` / `Mount.matches`.  An API route matches its
exact path, fully when the method agrees and partially otherwise.  A route
registered with `methods=None` fully matches any method at its exact path.
A mount at "/" (stored path "" after stripping) fully matches every
request path. -/
def routeMatch (r : Route) (req : Request) : RMatch :=
  match r with
  | Route.api m p _ =>
      if req.path = p then
        (if req.method = m then RMatch.full else RMatch.partialHit)
      else RMatch.noHit
  | Route.anyMethod p _ =>
      if req.path = p then RMatch.full else RMatch.noHit
  | Route.mount pre _ =>
      if pre = "/" ∨ strStartsWith req.path pre then RMatch.full
      else RMatch.noHit

/-- Execute a fully matched route.  The state (filesystem) is threaded
through: the API handler constructs a constant and the static handler only
reads, so both return it unchanged. -/
def handleFull (r : Route) (fs : FileSystem) (req : Request) :
    Response × FileSystem :=
  match r with
  | Route.api _ _ body => ({ status := 200, body := Body.json body }, fs)
  | Route.anyMethod _ resp => (resp, fs)
  | Route.mount _ sf => (sf.getResponse fs req.method req.path, fs)

/-- Starlette `Router.app`: scan the routes in registration order, take
the first full match; when a partial match was seen answer 405, otherwise
404. -/
def dispatchList (fs : FileSystem) (req : Request) :
    List Route → Bool → Response × FileSystem
  | [], sawMethodMiss =>
      if sawMethodMiss then
        ({ status := 405, body := Body.text "Method Not Allowed" }, fs)
      else ({ status := 404, body := Body.text "Not Found" }, fs)
  | r :: rs, sawMethodMiss =>
      match routeMatch r req with
      | RMatch.full => handleFull r fs req
      | RMatch.partialHit => dispatchList fs req rs true
      | RMatch.noHit => dispatchList fs req rs sawMethodMiss

/-- The application object: its route table in registration order. -/
structure App where
  routes : List Route
deriving DecidableEq, Repr

/-- Handle one request. -/
def App.handle (app : App) (fs : FileSystem) (req : Request) :
    Response × FileSystem :=
  dispatchList fs req app.routes false

/-- The `StaticFiles(directory="frontend", html=True)` instance of
`main.py`. -/
def frontendStatic : StaticFiles := { directory := "frontend", html := true }

/-- Auto-registered by `FastAPI()` during setup: serves the generated
OpenAPI schema at `/openapi.json`, any method, status 200. -/
def openapiRoute : Route :=
  Route.anyMethod "/openapi.json" { status := 200, body := Body.doc "openapi.json" }

/-- Auto-registered by `FastAPI()` during setup: serves the Swagger UI
page at `/docs`, any method, status 200. -/
def docsRoute : Route :=
  Route.anyMethod "/docs" { status := 200, body := Body.doc "swagger-ui" }

/-- Auto-registered by `FastAPI()` during setup: serves the OAuth2
redirect page at `/docs/oauth2-redirect`, any method, status 200. -/
def oauthRedirectRoute : Route :=
  Route.anyMethod "/docs/oauth2-redirect"
    { status := 200, body := Body.doc "oauth2-redirect" }

/-- Auto-registered by `FastAPI()` during setup: serves the ReDoc page at
`/redoc`, any method, status 200. -/
def redocRoute : Route :=
  Route.anyMethod "/redoc" { status := 200, body := Body.doc "redoc" }

/-- The application `main.py` builds whenever the `frontend` directory
exists: FastAPI's four auto-registered documentation routes (added by
`FastAPI()` before `include_router` runs), then the user route, then the
mount. -/
def theApp : App :=
  { routes := [openapiRoute, docsRoute, oauthRedirectRoute, redocRoute,
               Route.api Method.POST "/" hello,
               Route.mount "/" frontendStatic] }

/-- Module level code of `main.py`: `FastAPI()` registers the four
documentation routes, `include_router` appends the POST "/" route, and
`app.mount` appends the static mount; construction fails when
`StaticFiles.init` does. -/
def buildApp (fs : FileSystem) : Except String App :=
  match StaticFiles.init fs "frontend" true with
  | Except.error e => Except.error e
  | Except.ok sf =>
      Except.ok { routes := [openapiRoute, docsRoute, oauthRedirectRoute,
                             redocRoute, Route.api Method.POST "/" hello,
                             Route.mount "/" sf] }

/-- Modelled from the spec: the GET variant entry point, the second of the
two near-identical files the spec describes, which is not present under
`src/`.  Per the spec it registers a single route `GET /` returning the
same constant JSON payload and mounts no static directory. -/
def getVariantApp : App :=
  { routes := [Route.api Method.GET "/" hello] }

/-! ## Helper lemmas -/

/-- Successful construction forces the `frontend` directory to exist and
determines the application completely: the four framework documentation
routes, then the API route, then the mount. -/
theorem buildApp_ok {fs : FileSystem} {app : App}
    (h : buildApp fs = Except.ok app) :
    fs.isDir "frontend" = true ∧ app = theApp := by
  unfold buildApp StaticFiles.init at h
  by_cases hd : fs.isDir "frontend"
  · rw [if_pos hd] at h
    simp only [Except.ok.injEq] at h
    exact ⟨hd, h.symm⟩
  · rw [if_neg hd] at h
    exact absurd h (by simp)

/-- Dispatch never changes the filesystem: every handler in the table only
reads. -/
theorem dispatchList_state (fs : FileSystem) (req : Request) :
    ∀ (rs : List Route) (b : Bool), (dispatchList fs req rs b).2 = fs := by
  intro rs
  induction rs with
  | nil => intro b; cases b <;> simp [dispatchList]
  | cons r rs ih =>
      intro b
      cases hr : routeMatch r req with
      | full =>
          cases r <;> simp [dispatchList, hr, handleFull]
      | partialHit => simp [dispatchList, hr, ih]
      | noHit => simp [dispatchList, hr, ih]

/-- A POST request to "/" passes the four documentation routes, whose
paths differ from "/", and is taken by the API route, which yields the
serialised constant. -/
theorem handle_post_root {fs : FileSystem} {app : App} {req : Request}
    (h : buildApp fs = Except.ok app)
    (hm : req.method = Method.POST) (hp : req.path = "/") :
    app.handle fs req = ({ status := 200, body := Body.json hello }, fs) := by
  obtain ⟨-, rfl⟩ := buildApp_ok h
  simp [theApp, App.handle, dispatchList, routeMatch, openapiRoute, docsRoute,
    oauthRedirectRoute, redocRoute, hp, hm, handleFull]

/-- Any request neither the documentation routes nor the API route fully
match falls through to the mount, i.e. to the static handler over the
`frontend` directory. -/
theorem handle_unmatched {fs : FileSystem} {app : App} {req : Request}
    (h : buildApp fs = Except.ok app)
    (hnot : ¬(req.method = Method.POST ∧ req.path = "/"))
    (hdoc : req.path ≠ "/openapi.json" ∧ req.path ≠ "/docs" ∧
            req.path ≠ "/docs/oauth2-redirect" ∧ req.path ≠ "/redoc") :
    app.handle fs req =
      (frontendStatic.getResponse fs req.method req.path, fs) := by
  obtain ⟨-, rfl⟩ := buildApp_ok h
  obtain ⟨hd1, hd2, hd3, hd4⟩ := hdoc
  by_cases hp : req.path = "/"
  · have hm : ¬req.method = Method.POST := fun hm => hnot ⟨hm, hp⟩
    simp [theApp, App.handle, dispatchList, routeMatch, openapiRoute,
      docsRoute, oauthRedirectRoute, redocRoute, hp, hm, handleFull]
  · simp [theApp, App.handle, dispatchList, routeMatch, openapiRoute,
      docsRoute, oauthRedirectRoute, redocRoute, hp, hd1, hd2, hd3, hd4,
      handleFull]

/-- The 404 fallback always carries status 404, whether or not a
`404.html` exists. -/
theorem notFoundResponse_status (sf : StaticFiles) (fs : FileSystem) :
    (sf.notFoundResponse fs).status = 404 := by
  unfold StaticFiles.notFoundResponse
  cases hh : sf.html <;>
    cases hl : sf.lookupPath fs "404.html" <;>
      simp [hh, hl]

/-- When the static handler resolves no servable file for a GET or HEAD
request, its answer has status 404. -/
theorem getResponse_404_of_not_resolves (sf : StaticFiles) (fs : FileSystem)
    (m : Method) (p : String) (hm : m = Method.GET ∨ m = Method.HEAD)
    (hr : sf.resolvesFile fs p = false) :
    (sf.getResponse fs m p).status = 404 := by
  unfold StaticFiles.resolvesFile at hr
  unfold StaticFiles.getResponse
  have hguard : ¬(m ≠ Method.GET ∧ m ≠ Method.HEAD) := by
    rcases hm with hm | hm <;> simp [hm]
  rw [if_neg hguard]
  cases hl : sf.lookupPath fs (getPath p) with
  | file c => rw [hl] at hr; simp at hr
  | dir =>
      rw [hl] at hr
      cases hh : sf.html
      · simp [hl, hh, notFoundResponse_status]
      · rw [hh] at hr
        simp only [Bool.true_and] at hr
        cases hi : sf.lookupPath fs (joinRel (getPath p) "index.html") with
        | file c => rw [hi] at hr; simp at hr
        | dir => simp [hl, hh, hi, notFoundResponse_status]
        | missing => simp [hl, hh, hi, notFoundResponse_status]
  | missing => simp [hl, notFoundResponse_status]

/-- In a well-formed filesystem a directory is not also a regular file. -/
theorem wf_dir_no_file (fs : FileSystem) (hwf : fs.wf = true) (p : String)
    (hd : fs.isDir p = true) : fs.fileContents p = none := by
  unfold FileSystem.wf at hwf
  unfold FileSystem.isDir at hd
  unfold FileSystem.fileContents
  rw [List.all_eq_true] at hwf
  have hmem : p ∈ fs.dirs := by
    rw [List.contains_iff_exists_mem_beq] at hd
    obtain ⟨a, ha, hab⟩ := hd
    rwa [show p = a from by exact eq_of_beq hab]
  have := hwf p hmem
  exact Option.isNone_iff_eq_none.mp this

/-- The normalised root path is the empty relative path. -/
theorem getPath_root : getPath "/" = "" := rfl

/-- Root lookup unfolds to the lookup of the mounted directory itself. -/
theorem lookupPath_root (fs : FileSystem) :
    frontendStatic.lookupPath fs (getPath "/") =
      (match fs.fileContents "frontend" with
       | some c => PathStat.file c
       | none => if fs.isDir "frontend" then PathStat.dir
                 else PathStat.missing) := rfl

/-- Lookup of the root index unfolds to the lookup of
`frontend/index.html`. -/
theorem lookupPath_index (fs : FileSystem) :
    frontendStatic.lookupPath fs (joinRel (getPath "/") "index.html") =
      (match fs.fileContents "frontend/index.html" with
       | some c => PathStat.file c
       | none => if fs.isDir "frontend/index.html" then PathStat.dir
                 else PathStat.missing) := rfl

/-- With the directory present in a well-formed filesystem, the root path
names the directory. -/
theorem lookupPath_root_dir (fs : FileSystem)
    (hd : fs.isDir "frontend" = true) (hwf : fs.wf = true) :
    frontendStatic.lookupPath fs (getPath "/") = PathStat.dir := by
  rw [lookupPath_root, wf_dir_no_file fs hwf "frontend" hd]
  simp [hd]

/-- With an `index.html` present, the static handler serves it for the
root request. -/
theorem getResponse_root_index (fs : FileSystem) (c : String)
    (hd : fs.isDir "frontend" = true) (hwf : fs.wf = true)
    (hidx : fs.fileContents "frontend/index.html" = some c) :
    frontendStatic.getResponse fs Method.GET "/" =
      { status := 200, body := Body.file c } := by
  have h1 := lookupPath_root_dir fs hd hwf
  have h2 : frontendStatic.lookupPath fs (joinRel (getPath "/") "index.html") =
      PathStat.file c := by
    rw [lookupPath_index, hidx]
  have h3 : strEndsWith "/" "/" = true := rfl
  have h4 : frontendStatic.html = true := rfl
  unfold StaticFiles.getResponse
  rw [if_neg (by simp : ¬(Method.GET ≠ Method.GET ∧ Method.GET ≠ Method.HEAD))]
  simp only [h1, h2, h3, h4, if_true]

/-- Without an `index.html`, the static handler answers the root request
with status 404. -/
theorem getResponse_root_no_index (fs : FileSystem)
    (hd : fs.isDir "frontend" = true) (hwf : fs.wf = true)
    (hidx : fs.fileContents "frontend/index.html" = none) :
    (frontendStatic.getResponse fs Method.GET "/").status = 404 := by
  apply getResponse_404_of_not_resolves frontendStatic fs Method.GET "/" (Or.inl rfl)
  unfold StaticFiles.resolvesFile
  rw [lookupPath_root_dir fs hd hwf]
  rw [lookupPath_index, hidx]
  cases hdi : fs.isDir "frontend/index.html" <;> simp [hdi]


/-! ## Claims -/

/-- C1: for every POST request to path "/", the handler returns HTTP
status 200 and a JSON body that is exactly the object with the single key
"hello" mapped to the string "hello". -/
theorem post_root_status_and_body (fs : FileSystem) (app : App)
    (req : Request) (h : buildApp fs = Except.ok app)
    (hm : req.method = Method.POST) (hp : req.path = "/") :
    ((app.handle fs req).1).status = 200 ∧
      ((app.handle fs req).1).body = Body.json (Json.obj [("hello", "hello")]) := by
  rw [handle_post_root h hm hp]
  exact ⟨rfl, rfl⟩

/-- C1 witness: the theorem instantiated at a concrete filesystem and a
concrete POST request carrying headers and a body. -/
theorem post_root_status_and_body_witness :
    buildApp { dirs := ["frontend"], files := [] } = Except.ok theApp ∧
      (((theApp.handle { dirs := ["frontend"], files := [] }
            { method := Method.POST, path := "/", headers := [("x", "1")],
              query := [("q", "2")], body := "payload" }).1).status = 200 ∧
        ((theApp.handle { dirs := ["frontend"], files := [] }
            { method := Method.POST, path := "/", headers := [("x", "1")],
              query := [("q", "2")], body := "payload" }).1).body =
          Body.json (Json.obj [("hello", "hello")])) :=
  ⟨rfl, post_root_status_and_body _ _ _ rfl rfl rfl⟩

/-- C2: for a POST request to "/", the static mount registered after the
router also fully matches the request path, the route table keeps the API
route ahead of the mount (after the four framework documentation routes,
whose paths differ from "/"), and the answer is the JSON route handler's,
so the mount never shadows the registered route. -/
theorem post_root_route_beats_mount (fs : FileSystem) (app : App)
    (req : Request) (h : buildApp fs = Except.ok app)
    (hm : req.method = Method.POST) (hp : req.path = "/") :
    routeMatch (Route.mount "/" frontendStatic) req = RMatch.full ∧
      app.routes = [openapiRoute, docsRoute, oauthRedirectRoute, redocRoute,
                    Route.api Method.POST "/" hello,
                    Route.mount "/" frontendStatic] ∧
      (app.handle fs req).1 = { status := 200, body := Body.json hello } := by
  obtain ⟨-, happ⟩ := buildApp_ok h
  subst happ
  refine ⟨by simp [routeMatch], rfl, ?_⟩
  rw [handle_post_root h hm hp]

/-- C2 witness: concrete POST request over a filesystem whose static
directory even holds a root `index.html`. -/
theorem post_root_route_beats_mount_witness :
    buildApp { dirs := ["frontend"],
               files := [("frontend/index.html", "<html>")] } =
        Except.ok theApp ∧
      (routeMatch (Route.mount "/" frontendStatic)
          { method := Method.POST, path := "/", headers := [], query := [],
            body := "" } = RMatch.full ∧
        theApp.routes = [openapiRoute, docsRoute, oauthRedirectRoute,
                         redocRoute, Route.api Method.POST "/" hello,
                         Route.mount "/" frontendStatic] ∧
        ((theApp.handle
            { dirs := ["frontend"],
              files := [("frontend/index.html", "<html>")] }
            { method := Method.POST, path := "/", headers := [], query := [],
              body := "" }).1) =
          { status := 200, body := Body.json hello }) :=
  ⟨rfl, post_root_route_beats_mount _ _ _ rfl rfl rfl⟩

/-- C3: in the GET variant of the application, a GET request to "/"
returns status 200 and the JSON body that is exactly the object with the
single key "hello" mapped to "hello". -/
theorem get_variant_root (fs : FileSystem) (req : Request)
    (hm : req.method = Method.GET) (hp : req.path = "/") :
    (getVariantApp.handle fs req).1 =
      { status := 200, body := Body.json (Json.obj [("hello", "hello")]) } := by
  simp [getVariantApp, App.handle, dispatchList, routeMatch, hp, hm,
    handleFull, hello]

/-- C3 witness: concrete GET request to "/" against the GET variant. -/
theorem get_variant_root_witness :
    (getVariantApp.handle { dirs := [], files := [] }
        { method := Method.GET, path := "/", headers := [], query := [],
          body := "" }).1 =
      { status := 200, body := Body.json (Json.obj [("hello", "hello")]) } :=
  get_variant_root _ _ rfl rfl

/-- C4 as stated is false: over a filesystem with no `frontend` directory,
module-level construction already fails, because StaticFiles checks the
directory at construction time (`check_dir` defaults to true), so a
missing directory does prevent application construction. -/
theorem buildApp_missing_dir_error :
    buildApp { dirs := [], files := [] } =
      Except.error "Directory does not exist" := rfl

/-- C4 amended: a GET request for a missing file below an existing static
directory — its path being none of the framework documentation endpoints,
which answer 200 themselves — is answered at request time with the
framework default not-found status 404, with no custom handling; but a
missing `frontend` directory makes application construction itself fail
with the StaticFiles directory-check error. -/
theorem static_missing_file_404_and_init_check
    (fs fs2 : FileSystem) (app : App) (req : Request)
    (h : buildApp fs = Except.ok app) (hm : req.method = Method.GET)
    (hdoc : req.path ≠ "/openapi.json" ∧ req.path ≠ "/docs" ∧
            req.path ≠ "/docs/oauth2-redirect" ∧ req.path ≠ "/redoc")
    (hmiss : frontendStatic.resolvesFile fs req.path = false)
    (hd2 : fs2.isDir "frontend" = false) :
    ((app.handle fs req).1).status = 404 ∧
      buildApp fs2 = Except.error "Directory does not exist" := by
  constructor
  · have hnot : ¬(req.method = Method.POST ∧ req.path = "/") := by
      intro hc
      rw [hm] at hc
      exact absurd hc.1 (by simp)
    rw [handle_unmatched h hnot hdoc]
    exact getResponse_404_of_not_resolves _ _ _ _ (Or.inl hm) hmiss
  · unfold buildApp StaticFiles.init
    rw [if_neg (by simp [hd2])]

/-- C4 witness: a GET request for a file absent from the static directory
is answered 404, and over the empty filesystem construction errors. -/
theorem static_missing_file_404_and_init_check_witness :
    buildApp { dirs := ["frontend"], files := [] } = Except.ok theApp ∧
      frontendStatic.resolvesFile { dirs := ["frontend"], files := [] }
          "/missing.txt" = false ∧
      (((theApp.handle { dirs := ["frontend"], files := [] }
            { method := Method.GET, path := "/missing.txt", headers := [],
              query := [], body := "" }).1).status = 404 ∧
        buildApp { dirs := [], files := [] } =
          Except.error "Directory does not exist") :=
  ⟨rfl, by decide,
    static_missing_file_404_and_init_check _ _ _ _ rfl rfl
      ⟨by decide, by decide, by decide, by decide⟩ (by decide) (by decide)⟩

/-- C5: the POST "/" handler is independent of the request: any two POST
requests to "/", however they differ in headers, query parameters or body,
produce the identical result, response and final state alike; no request
data is inspected and no state changes between the two runs. -/
theorem post_root_request_independent (fs : FileSystem) (app : App)
    (req1 req2 : Request) (h : buildApp fs = Except.ok app)
    (hm1 : req1.method = Method.POST) (hp1 : req1.path = "/")
    (hm2 : req2.method = Method.POST) (hp2 : req2.path = "/") :
    app.handle fs req1 = app.handle fs req2 := by
  rw [handle_post_root h hm1 hp1, handle_post_root h hm2 hp2]

/-- C5 witness: two concrete POST requests to "/" differing in headers,
query and body. -/
theorem post_root_request_independent_witness :
    buildApp { dirs := ["frontend"], files := [] } = Except.ok theApp ∧
      theApp.handle { dirs := ["frontend"], files := [] }
          { method := Method.POST, path := "/", headers := [("a", "1")],
            query := [], body := "one" } =
        theApp.handle { dirs := ["frontend"], files := [] }
          { method := Method.POST, path := "/", headers := [("b", "2")],
            query := [("k", "v")], body := "two" } :=
  ⟨rfl, post_root_request_independent _ _ _ _ rfl rfl rfl rfl rfl⟩

/-- C6: every request whose path is matched by no registered route — the
registered routes being the four documentation routes FastAPI registers
itself and the POST "/" route of the router — is resolved by the static
handler over the directory named "frontend", and for the root request with
a `frontend/index.html` present that index file is served. -/
theorem unmatched_paths_use_frontend (fs : FileSystem) (app : App)
    (req : Request) (c : String) (h : buildApp fs = Except.ok app)
    (hwf : fs.wf = true)
    (hnot : ¬(req.method = Method.POST ∧ req.path = "/"))
    (hdoc : req.path ≠ "/openapi.json" ∧ req.path ≠ "/docs" ∧
            req.path ≠ "/docs/oauth2-redirect" ∧ req.path ≠ "/redoc") :
    (app.handle fs req).1 =
        frontendStatic.getResponse fs req.method req.path ∧
      (req.method = Method.GET → req.path = "/" →
        fs.fileContents "frontend/index.html" = some c →
        (app.handle fs req).1 = { status := 200, body := Body.file c }) := by
  have h1 : (app.handle fs req).1 =
      frontendStatic.getResponse fs req.method req.path := by
    rw [handle_unmatched h hnot hdoc]
  refine ⟨h1, fun hm hp hidx => ?_⟩
  rw [h1, hm, hp]
  exact getResponse_root_index fs c (buildApp_ok h).1 hwf hidx

/-- C6 witness: a GET request to "/" over a filesystem holding a root
`index.html` is served that file by the static handler. -/
theorem unmatched_paths_use_frontend_witness :
    buildApp { dirs := ["frontend"],
               files := [("frontend/index.html", "<html>")] } =
        Except.ok theApp ∧
      FileSystem.wf { dirs := ["frontend"],
                      files := [("frontend/index.html", "<html>")] } = true ∧
      ((theApp.handle
            { dirs := ["frontend"],
              files := [("frontend/index.html", "<html>")] }
            { method := Method.GET, path := "/", headers := [], query := [],
              body := "" }).1 =
          frontendStatic.getResponse
            { dirs := ["frontend"],
              files := [("frontend/index.html", "<html>")] }
            Method.GET "/" ∧
        (Method.GET = Method.GET → "/" = "/" →
          FileSystem.fileContents
              { dirs := ["frontend"],
                files := [("frontend/index.html", "<html>")] }
              "frontend/index.html" = some "<html>" →
          (theApp.handle
              { dirs := ["frontend"],
                files := [("frontend/index.html", "<html>")] }
              { method := Method.GET, path := "/", headers := [], query := [],
                body := "" }).1 =
            { status := 200, body := Body.file "<html>" })) :=
  ⟨rfl, by decide,
    unmatched_paths_use_frontend _ _ _ "<html>" rfl (by decide) (by decide)
      ⟨by decide, by decide, by decide, by decide⟩⟩

/-- C7 as stated is false: a POST request to "/foo" matches no route and
maps to no file, yet the static handler rejects it with status 405, method
not allowed, which is not a not-found status. -/
theorem post_unmatched_path_405 :
    buildApp { dirs := ["frontend"], files := [] } = Except.ok theApp ∧
      frontendStatic.resolvesFile { dirs := ["frontend"], files := [] }
          "/foo" = false ∧
      (theApp.handle { dirs := ["frontend"], files := [] }
          { method := Method.POST, path := "/foo", headers := [], query := [],
            body := "" }).1 =
        { status := 405, body := Body.text "Method Not Allowed" } ∧
      ((theApp.handle { dirs := ["frontend"], files := [] }
          { method := Method.POST, path := "/foo", headers := [], query := [],
            body := "" }).1).status ≠ 404 :=
  ⟨rfl, by decide, by decide, by decide⟩

/-- C7 amended: among requests whose path is matched by no registered
route — neither the POST "/" route nor the documentation routes FastAPI
registers itself — and maps to no existing file under the static
directory, those with method GET or HEAD receive the not-found status 404,
while those with any other method are rejected by the static handler with
status 405. -/
theorem unmatched_no_file_status (fs : FileSystem) (app : App)
    (req req2 : Request) (h : buildApp fs = Except.ok app)
    (hm : req.method = Method.GET ∨ req.method = Method.HEAD)
    (hdoc : req.path ≠ "/openapi.json" ∧ req.path ≠ "/docs" ∧
            req.path ≠ "/docs/oauth2-redirect" ∧ req.path ≠ "/redoc")
    (hmiss : frontendStatic.resolvesFile fs req.path = false)
    (hm2 : req2.method ≠ Method.GET ∧ req2.method ≠ Method.HEAD)
    (hnot2 : ¬(req2.method = Method.POST ∧ req2.path = "/"))
    (hdoc2 : req2.path ≠ "/openapi.json" ∧ req2.path ≠ "/docs" ∧
             req2.path ≠ "/docs/oauth2-redirect" ∧ req2.path ≠ "/redoc") :
    ((app.handle fs req).1).status = 404 ∧
      ((app.handle fs req2).1).status = 405 := by
  constructor
  · have hnot : ¬(req.method = Method.POST ∧ req.path = "/") := by
      intro hc
      rcases hm with hm | hm <;> rw [hm] at hc <;> exact absurd hc.1 (by simp)
    rw [handle_unmatched h hnot hdoc]
    exact getResponse_404_of_not_resolves _ _ _ _ hm hmiss
  · rw [handle_unmatched h hnot2 hdoc2]
    unfold StaticFiles.getResponse
    rw [if_pos hm2]

/-- C7 amended witness: a GET for an absent file gets 404 and a PUT to an
unmatched path gets 405. -/
theorem unmatched_no_file_status_witness :
    buildApp { dirs := ["frontend"], files := [] } = Except.ok theApp ∧
      frontendStatic.resolvesFile { dirs := ["frontend"], files := [] }
          "/nope.css" = false ∧
      (((theApp.handle { dirs := ["frontend"], files := [] }
            { method := Method.GET, path := "/nope.css", headers := [],
              query := [], body := "" }).1).status = 404 ∧
        ((theApp.handle { dirs := ["frontend"], files := [] }
            { method := Method.PUT, path := "/zap", headers := [],
              query := [], body := "" }).1).status = 405) :=
  ⟨rfl, by decide,
    unmatched_no_file_status _ _ _ _ rfl (Or.inl rfl)
      ⟨by decide, by decide, by decide, by decide⟩ (by decide)
      (by decide) (by decide)
      ⟨by decide, by decide, by decide, by decide⟩⟩

/-- C8: handling a POST request to "/" computes, for every filesystem and
every request, to the one constant result: the serialised constant
response paired with the untouched state.  The handler performs nothing
beyond constructing and returning this constant, and its evaluation is
total. -/
theorem post_root_constant_result (fs : FileSystem) (app : App)
    (req : Request) (h : buildApp fs = Except.ok app)
    (hm : req.method = Method.POST) (hp : req.path = "/") :
    app.handle fs req = ({ status := 200, body := Body.json hello }, fs) :=
  handle_post_root h hm hp

/-- C8 witness: the constant result at a concrete filesystem and
request. -/
theorem post_root_constant_result_witness :
    buildApp { dirs := ["frontend"], files := [("frontend/a.txt", "A")] } =
        Except.ok theApp ∧
      theApp.handle { dirs := ["frontend"], files := [("frontend/a.txt", "A")] }
          { method := Method.POST, path := "/", headers := [], query := [],
            body := "ignored" } =
        ({ status := 200, body := Body.json hello },
          { dirs := ["frontend"], files := [("frontend/a.txt", "A")] }) :=
  ⟨rfl, post_root_constant_result _ _ _ rfl rfl rfl⟩

/-- C9: handling any request leaves the filesystem, the only ambient state
the application touches, unchanged: every handler in the route table only
reads, and the application introduces no mutable state of its own. -/
theorem handle_preserves_state (fs : FileSystem) (app : App) (req : Request)
    (_h : buildApp fs = Except.ok app) :
    (app.handle fs req).2 = fs := by
  unfold App.handle
  exact dispatchList_state fs req app.routes false

/-- C9 witness: the state is returned unchanged for a concrete request. -/
theorem handle_preserves_state_witness :
    buildApp { dirs := ["frontend"], files := [("frontend/x", "X")] } =
        Except.ok theApp ∧
      (theApp.handle { dirs := ["frontend"], files := [("frontend/x", "X")] }
          { method := Method.GET, path := "/x", headers := [], query := [],
            body := "" }).2 =
        { dirs := ["frontend"], files := [("frontend/x", "X")] } :=
  ⟨rfl, handle_preserves_state _ _ _ rfl⟩

/-- C10: a GET request to "/" only partially matches the POST-only API
route (and misses the documentation routes, whose paths differ from "/"),
so it is dispatched to the static mount: with a `frontend/index.html`
present that file is served with status 200, and without one the static
handler answers with the not-found status 404. -/
theorem get_root_goes_to_static (fs : FileSystem) (app : App)
    (req : Request) (c : String) (h : buildApp fs = Except.ok app)
    (hwf : fs.wf = true)
    (hm : req.method = Method.GET) (hp : req.path = "/") :
    routeMatch (Route.api Method.POST "/" hello) req = RMatch.partialHit ∧
      (fs.fileContents "frontend/index.html" = some c →
        (app.handle fs req).1 = { status := 200, body := Body.file c }) ∧
      (fs.fileContents "frontend/index.html" = none →
        ((app.handle fs req).1).status = 404) := by
  have hnot : ¬(req.method = Method.POST ∧ req.path = "/") := by
    intro hc
    rw [hm] at hc
    exact absurd hc.1 (by simp)
  have hdoc : req.path ≠ "/openapi.json" ∧ req.path ≠ "/docs" ∧
      req.path ≠ "/docs/oauth2-redirect" ∧ req.path ≠ "/redoc" := by
    rw [hp]
    exact ⟨by decide, by decide, by decide, by decide⟩
  have h1 := handle_unmatched h hnot hdoc
  refine ⟨by simp [routeMatch, hp, hm], fun hidx => ?_, fun hidx => ?_⟩
  · rw [h1, hm, hp]
    exact getResponse_root_index fs c (buildApp_ok h).1 hwf hidx
  · rw [h1, hm, hp]
    exact getResponse_root_no_index fs (buildApp_ok h).1 hwf hidx

/-- C10 witness: over a filesystem without an index file, the GET root
request partially matches the API route and ends in 404 from the mount. -/
theorem get_root_goes_to_static_witness :
    buildApp { dirs := ["frontend"], files := [] } = Except.ok theApp ∧
      FileSystem.wf { dirs := ["frontend"], files := [] } = true ∧
      (routeMatch (Route.api Method.POST "/" hello)
          { method := Method.GET, path := "/", headers := [], query := [],
            body := "" } = RMatch.partialHit ∧
        (FileSystem.fileContents { dirs := ["frontend"], files := [] }
            "frontend/index.html" = some "x" →
          (theApp.handle { dirs := ["frontend"], files := [] }
              { method := Method.GET, path := "/", headers := [], query := [],
                body := "" }).1 =
            { status := 200, body := Body.file "x" }) ∧
        (FileSystem.fileContents { dirs := ["frontend"], files := [] }
            "frontend/index.html" = none →
          ((theApp.handle { dirs := ["frontend"], files := [] }
              { method := Method.GET, path := "/", headers := [], query := [],
                body := "" }).1).status = 404)) :=
  ⟨rfl, by decide,
    get_root_goes_to_static _ _ _ "x" rfl (by decide) rfl rfl⟩
